import Mathlib

/-!
Verification of the packaging and test-invocation glue of
`sage-numerical-backends-coin`.

The repository consists of two Python scripts:

* `check_sage_testsuite.py` — a test entry point that patches the host
  algebra system's module registry, forces its default MILP solver to the
  COIN backend, and runs two doctest batches, turning their results into
  process exit codes.
* `setup.py` — the build script, which discovers the Cbc native library
  via `pkgconfig.parse`, configures the Cython extension from the
  discovered values, probes the host Sage installation for two
  compatibility features, and provides a `test` command wrapping an
  external test runner.

We embed these scripts shallowly: the test script becomes a function from
its environment-dependent inputs (the two doctest-run results) to a trace
of observable events; the build script's configuration logic becomes pure
functions from the environment-dependent inputs (the pkg-config parse
result, the Sage include directories, the two probe outcomes) to the
configuration values the script computes.
-/

namespace CoinBackend

/-! ## Embedding of `check_sage_testsuite.py`

The script performs, in source order:

1. (line 12) `sys.modules['sage.numerical.backends.coin_backend'] =
   backends.coin_backend = coin_backend` — a chained assignment writing
   the module-registry entry and the `coin_backend` attribute of the
   `sage.numerical.backends` package;
2. (line 15) `default_mip_solver('COIN')`;
3. (line 22) `os.chdir(os.path.join(sage.env.SAGE_LIB, 'sage'))`;
4. (lines 36–40) a `DocTestController` run on the script file itself,
   verifying the default-backend override; on nonzero result it prints an
   error and calls `sys.exit(2)`;
5. (lines 43–46) a `DocTestController` run on the curated file list; on
   nonzero result `sys.exit(1)`;
6. (line 48) `sys.exit(0)`.

We record these as a trace of events.  The results of the two
`DocTestController.run()` calls depend on the host installation and are
inputs `err1`/`err2`; the expansion of `glob.glob("numerical/*.py") +
glob.glob("numerical/*.pyx")` depends on the host filesystem and is the
input `numericalFiles`.
-/

/-- An observable action of the test script. -/
inductive Event where
  /-- An assignment to an entry of `sys.modules`, the global module
  registry of the host system. -/
  | sysModulesSet (key : String)
  /-- An assignment to an attribute of a host-system module
  (`backends.coin_backend = coin_backend` in the chained assignment). -/
  | moduleAttrSet (modName attr : String)
  /-- A call to `default_mip_solver`, setting the host system's global
  default-solver selection. -/
  | setDefaultSolver (solverName : String)
  /-- `os.chdir`: changes the working directory of the test process
  itself, not a host-system (Sage) global. -/
  | chdir (path : String)
  /-- One `DocTestController(options, sources).run()` call and the error
  value it returned. -/
  | docTestRun (sources : List String) (err : Int)
  /-- `sys.exit(code)`. -/
  | exit (code : Nat)
  deriving DecidableEq, Repr

/-- The module-registry key written on line 12. -/
def backendKey : String := "sage.numerical.backends.coin_backend"

/-- `abs_file = os.path.abspath("check_sage_testsuite.py")` (line 21),
the single source of the override-verification doctest run. -/
def absFile : String := "check_sage_testsuite.py"

/-- The hard-coded file list of lines 23–31 of `check_sage_testsuite.py`. -/
def staticTestFiles : List String :=
  ["coding",
   "combinat/designs", "combinat/integer_vector.py", "combinat/posets/",
   "game_theory/",
   "geometry/polyhedron/base.py", "geometry/cone.py",
   "graphs/",
   "topology/simplicial_complex.py",
   "knots/",
   "matroids/",
   "sat/"]

/-- The event trace of `check_sage_testsuite.py`, as a function of the
glob expansion `numericalFiles` (line 33) and the results `err1`, `err2`
of the two `DocTestController.run()` calls (lines 37 and 44).  The
control flow is exactly that of lines 36–48: a nonzero first result
exits with code 2 before the second controller is ever constructed; a
nonzero second result exits with code 1; otherwise the script exits 0. -/
def checkSageTestsuite (numericalFiles : List String) (err1 err2 : Int) :
    List Event :=
  [Event.sysModulesSet backendKey,
   Event.moduleAttrSet "sage.numerical.backends" "coin_backend",
   Event.setDefaultSolver "COIN",
   Event.chdir "SAGE_LIB/sage",
   Event.docTestRun [absFile] err1] ++
  (if err1 ≠ 0 then
    [Event.exit 2]
   else
    [Event.docTestRun (staticTestFiles ++ numericalFiles) err2] ++
    (if err2 ≠ 0 then [Event.exit 1] else [Event.exit 0]))

/-- The exit code produced by a trace event, if any. -/
def Event.exitCodeOf : Event → Option Nat
  | Event.exit c => some c
  | _ => none

/-- All `sys.exit` codes of a trace, in order. -/
def exitCodes (t : List Event) : List Nat := t.filterMap Event.exitCodeOf

/-- Whether an event is a `DocTestController.run()` call. -/
def Event.isDocTestRun : Event → Bool
  | Event.docTestRun _ _ => true
  | _ => false

/-- Whether an event mutates host-system (Sage) global state: writes to
the module registry, writes to a host module attribute, or setting the
global default-solver selection.  `chdir` changes only the test
process's own working directory, and doctest runs and `sys.exit` do not
write host globals. -/
def Event.mutatesHostState : Event → Bool
  | Event.sysModulesSet _ => true
  | Event.moduleAttrSet _ _ => true
  | Event.setDefaultSolver _ => true
  | _ => false

/-- Whether an event writes the global module-registry entry. -/
def Event.isRegistryMutation : Event → Bool
  | Event.sysModulesSet _ => true
  | _ => false

/-- The exit code of the script as a function of the two doctest-run
results (the unique code in `exitCodes` of the trace). -/
def scriptExitCode (err1 err2 : Int) : Nat :=
  if err1 ≠ 0 then 2 else if err2 ≠ 0 then 1 else 0

/-! ## Embedding of `setup.py`

The build script's configuration logic (lines 32–79):

* `pkgconfig.parse('cbc')` either returns a mapping with (at least) the
  keys `libraries`, `library_dirs`, `include_dirs`, or raises
  `PackageNotFoundError` (pkgconfig ≥ 1.5 raises this also when the
  `pkg-config` tool itself is absent — sage trac #28883).  We model the
  outcome as an `Option PkgInfo`: `some pc` for a successful parse,
  `none` for the raised exception.
* On the exception, line 38 substitutes
  `defaultdict(list, {'libraries': ['Cbc']})`: lookups of `libraries`
  yield `['Cbc']` and lookups of any other key yield `[]`.
* Lines 42–54 read the three keys and build the `Extension`. -/

/-- The three keys of the pkg-config result that `setup.py` reads
(lines 42–44). -/
structure PkgInfo where
  libraries : List String
  library_dirs : List String
  include_dirs : List String
  deriving DecidableEq, Repr

/-- Lines 34–38: the `try`/`except` around `pkgconfig.parse('cbc')`.
On `PackageNotFoundError` (`none`) the fallback
`defaultdict(list, {'libraries': ['Cbc']})` is substituted, under which
the three keys read later give `['Cbc']`, `[]`, `[]`. -/
def computeCbcPc : Option PkgInfo → PkgInfo
  | some pc => pc
  | none => { libraries := ["Cbc"], library_dirs := [], include_dirs := [] }

/-- The keyword arguments of the `Extension` constructed on
lines 47–54. -/
structure ExtensionConfig where
  name : String
  sources : List String
  libraries : List String
  include_dirs : List String
  library_dirs : List String
  extra_compile_args : List String
  deriving DecidableEq, Repr

/-- Lines 47–54: the `Extension` built from the pkg-config values and
the host's `sage_include_directories()` (input `sageIncs`). -/
def coinBackendExtension (sageIncs : List String) (pc : PkgInfo) :
    ExtensionConfig :=
  { name := "sage.numerical.backends.coin_backend",
    sources := ["sage/numerical/backends/coin_backend.pyx"],
    libraries := pc.libraries,
    include_dirs := sageIncs ++ pc.include_dirs,
    library_dirs := pc.library_dirs,
    extra_compile_args := ["-std=c++11"] }

/-- The whole discovery-and-configuration step: `pkgconfig.parse` with
its exception handler, then the `Extension` construction. -/
def buildExtension (sageIncs : List String) (parseResult : Option PkgInfo) :
    ExtensionConfig :=
  coinBackendExtension sageIncs (computeCbcPc parseResult)

/-- The outcome of one feature-detection probe: either the probed
operation succeeds, or it raises the exception the surrounding
`try`/`except` catches (`ImportError` for the `sage.cpython.string`
probe on lines 63–67, `CompileError` for the `cythonize` probe on
lines 71–79). -/
inductive ProbeOutcome where
  | ok
  | caughtError
  deriving DecidableEq, Repr

/-- The dictionary of compile-time flags (line 59). -/
structure CompileTimeEnv where
  HAVE_SAGE_CPYTHON_STRING : Bool
  HAVE_ADD_COL_UNTYPED_ARGS : Bool
  deriving DecidableEq, Repr

/-- Lines 59–60: both flags start at their disabled default `False`. -/
def initialCompileTimeEnv : CompileTimeEnv :=
  { HAVE_SAGE_CPYTHON_STRING := false, HAVE_ADD_COL_UNTYPED_ARGS := false }

/-- Lines 62–67: `try: import sage.cpython.string; ... = True
except ImportError: pass`. -/
def applyStringProbe (env : CompileTimeEnv) (o : ProbeOutcome) :
    CompileTimeEnv :=
  match o with
  | ProbeOutcome.ok => { env with HAVE_SAGE_CPYTHON_STRING := true }
  | ProbeOutcome.caughtError => env

/-- Lines 70–79: `try: cythonize(...); ... = True
except CompileError: pass`. -/
def applyAddColProbe (env : CompileTimeEnv) (o : ProbeOutcome) :
    CompileTimeEnv :=
  match o with
  | ProbeOutcome.ok => { env with HAVE_ADD_COL_UNTYPED_ARGS := true }
  | ProbeOutcome.caughtError => env

/-- Lines 59–79 as a whole: the compile-time environment produced from
the two probe outcomes, starting from the all-`False` default. -/
def setupCompileTimeEnv (o1 o2 : ProbeOutcome) : CompileTimeEnv :=
  applyAddColProbe (applyStringProbe initialCompileTimeEnv o1) o2

/-- The possible terminations of `SageTest.run_tests` (setup.py
lines 17–24): either the method returns normally, or it calls
`sys.exit` with a code. -/
inductive RunTestsResult where
  | returned
  | exited (code : Nat)
  deriving DecidableEq, Repr

/-- Lines 22–24 of `setup.py`: `errno = os.system(...)`;
`if errno != 0: sys.exit(1)`.  The input is the value `os.system`
returned for the external test runner. -/
def run_tests (errno : Int) : RunTestsResult :=
  if errno ≠ 0 then RunTestsResult.exited 1 else RunTestsResult.returned

end CoinBackend

namespace CoinBackend

/-! ## Theorems for the claims -/

/-- Claim C1: the test entry point exits 0 exactly when both the
override-verification run and the curated-subset run return 0; it exits
2 exactly when the override verification failed, and 1 exactly when the
override verification passed but the curated subset failed.  The trace
contains exactly this one exit. -/
theorem C1_exit_code_meaning (nf : List String) (e1 e2 : Int) :
    exitCodes (checkSageTestsuite nf e1 e2) = [scriptExitCode e1 e2] ∧
    (scriptExitCode e1 e2 = 0 ↔ (e1 = 0 ∧ e2 = 0)) ∧
    (scriptExitCode e1 e2 = 2 ↔ e1 ≠ 0) ∧
    (scriptExitCode e1 e2 = 1 ↔ (e1 = 0 ∧ e2 ≠ 0)) := by
  by_cases h1 : e1 = 0 <;> by_cases h2 : e2 = 0 <;>
    simp [checkSageTestsuite, exitCodes, scriptExitCode, Event.exitCodeOf,
      h1, h2]

/-- Claim C2: when `pkgconfig.parse('cbc')` raises because the
package-config tool is unavailable (`none`), the exception is caught and
the hard-coded fallback library name `Cbc` is substituted, and the
extension configuration is still produced, with that library name. -/
theorem C2_pkgconfig_fallback (sageIncs : List String) :
    (computeCbcPc none).libraries = ["Cbc"] ∧
    (buildExtension sageIncs none).libraries = ["Cbc"] ∧
    (buildExtension sageIncs none).name =
      "sage.numerical.backends.coin_backend" := by
  exact ⟨rfl, rfl, rfl⟩

/-- Claim C3: there are exactly the two probes, each gating its own
flag; each flag ends up `true` exactly when its probe succeeded, and
when both probes raise their caught exception the environment is left at
its all-disabled default. -/
theorem C3_feature_probes (o1 o2 : ProbeOutcome) :
    (setupCompileTimeEnv o1 o2).HAVE_SAGE_CPYTHON_STRING =
      (o1 == ProbeOutcome.ok) ∧
    (setupCompileTimeEnv o1 o2).HAVE_ADD_COL_UNTYPED_ARGS =
      (o2 == ProbeOutcome.ok) ∧
    setupCompileTimeEnv ProbeOutcome.caughtError ProbeOutcome.caughtError =
      initialCompileTimeEnv := by
  cases o1 <;> cases o2 <;> exact ⟨rfl, rfl, rfl⟩

/-- Claim C4: `SageTest.run_tests` calls `sys.exit(1)` exactly when the
external test runner's result is nonzero, and returns normally (no
`sys.exit`) exactly when it is zero. -/
theorem C4_run_tests_exit (errno : Int) :
    (run_tests errno = RunTestsResult.exited 1 ↔ errno ≠ 0) ∧
    (run_tests errno = RunTestsResult.returned ↔ errno = 0) := by
  by_cases h : errno = 0 <;> simp [run_tests, h]

/-- Claim C5 as stated is false: the trace of the script (here at
numericalFiles = [], err1 = err2 = 0) contains the
`default_mip_solver('COIN')` call, a mutation of host-system global
state that is not the module-registry entry, so the registry entry is
not the only host-system state the script manipulates. -/
theorem C5_counterexample :
    Event.setDefaultSolver "COIN" ∈ checkSageTestsuite [] 0 0 ∧
    (Event.setDefaultSolver "COIN").mutatesHostState = true ∧
    (Event.setDefaultSolver "COIN").isRegistryMutation = false := by
  refine ⟨?_, rfl, rfl⟩
  simp [checkSageTestsuite]

/-- Claim C5, amended: the global module-registry entry is mutated
exactly once, as the very first action of the script, before any doctest
run, and never modified again; but in addition the script mutates two
further pieces of host-system state at setup time, also before any
doctest run — the `coin_backend` attribute of the backends package and
the global default-solver selection — and after the first doctest run
starts, no host-system state is mutated at all. -/
theorem C5_registry_mutation_once (nf : List String) (e1 e2 : Int) :
    (checkSageTestsuite nf e1 e2).head? = some (Event.sysModulesSet backendKey) ∧
    ((checkSageTestsuite nf e1 e2).drop 1).all
      (fun e => !(e.isRegistryMutation)) ∧
    ((checkSageTestsuite nf e1 e2).takeWhile
        (fun e => !(e.isDocTestRun))).filter Event.mutatesHostState =
      [Event.sysModulesSet backendKey,
       Event.moduleAttrSet "sage.numerical.backends" "coin_backend",
       Event.setDefaultSolver "COIN"] ∧
    ((checkSageTestsuite nf e1 e2).dropWhile
        (fun e => !(e.isDocTestRun))).all
      (fun e => !(e.mutatesHostState)) := by
  by_cases h1 : e1 = 0 <;> by_cases h2 : e2 = 0 <;>
    simp [checkSageTestsuite, Event.isRegistryMutation, Event.isDocTestRun,
      Event.mutatesHostState, h1, h2, List.takeWhile, List.dropWhile,
      List.filter]

/-- Claim C6: the `default_mip_solver('COIN')` call occurs among the
events strictly before the first doctest run, hence the default-solver
override precedes every doctest execution, on every input. -/
theorem C6_override_before_doctests (nf : List String) (e1 e2 : Int) :
    Event.setDefaultSolver "COIN" ∈
      (checkSageTestsuite nf e1 e2).takeWhile (fun e => !(e.isDocTestRun)) := by
  by_cases h1 : e1 = 0 <;> by_cases h2 : e2 = 0 <;>
    simp [checkSageTestsuite, Event.isDocTestRun, List.takeWhile, h1, h2]

/-- Claim C7: the extension is configured from exactly the discovered
pkg-config values: its libraries and library_dirs are those of the
parse result, and its include_dirs are the host's Sage include
directories followed by the discovered include directories. -/
theorem C7_extension_from_pkgconfig (sageIncs : List String) (pc : PkgInfo) :
    (buildExtension sageIncs (some pc)).libraries = pc.libraries ∧
    (buildExtension sageIncs (some pc)).library_dirs = pc.library_dirs ∧
    (buildExtension sageIncs (some pc)).include_dirs =
      sageIncs ++ pc.include_dirs := by
  exact ⟨rfl, rfl, rfl⟩

/-- Claim C8: when the override-verification run returns a nonzero
error, the script exits with code 2 and the trace contains exactly one
doctest run — the curated-subset run is never started. -/
theorem C8_early_exit_on_override_failure (nf : List String) (e1 e2 : Int)
    (h : e1 ≠ 0) :
    ((checkSageTestsuite nf e1 e2).filter Event.isDocTestRun).length = 1 ∧
    exitCodes (checkSageTestsuite nf e1 e2) = [2] := by
  simp [checkSageTestsuite, exitCodes, Event.exitCodeOf, Event.isDocTestRun,
    List.filter, h]

/-- Witness for C8 at numericalFiles = [], err1 = 1, err2 = 0. -/
theorem C8_early_exit_on_override_failure_witness :
    (1 : Int) ≠ 0 ∧
    (((checkSageTestsuite [] 1 0).filter Event.isDocTestRun).length = 1 ∧
     exitCodes (checkSageTestsuite [] 1 0) = [2]) :=
  ⟨by decide, C8_early_exit_on_override_failure [] 1 0 (by decide)⟩

/-- Claim C9: on `PackageNotFoundError` the fallback mapping gives
libraries = ['Cbc'] and empty lists for the other two keys, so the
extension is built with library name `Cbc`, no pkg-config library
directories, and only the Sage include directories. -/
theorem C9_fallback_defaultdict (sageIncs : List String) :
    computeCbcPc none =
      { libraries := ["Cbc"], library_dirs := [], include_dirs := [] } ∧
    (buildExtension sageIncs none).libraries = ["Cbc"] ∧
    (buildExtension sageIncs none).library_dirs = [] ∧
    (buildExtension sageIncs none).include_dirs = sageIncs ++ [] := by
  exact ⟨rfl, rfl, rfl, rfl⟩

/-- Claim C10: on every execution path the script reaches exactly one
`sys.exit`, and its code is 0, 1 or 2. -/
theorem C10_exit_codes_bounded (nf : List String) (e1 e2 : Int) :
    ∃ c, exitCodes (checkSageTestsuite nf e1 e2) = [c] ∧
      (c = 0 ∨ c = 1 ∨ c = 2) := by
  refine ⟨scriptExitCode e1 e2, ?_, ?_⟩
  · by_cases h1 : e1 = 0 <;> by_cases h2 : e2 = 0 <;>
      simp [checkSageTestsuite, exitCodes, scriptExitCode, Event.exitCodeOf,
        h1, h2]
  · unfold scriptExitCode
    by_cases h1 : e1 = 0 <;> by_cases h2 : e2 = 0 <;> simp [h1, h2]

end CoinBackend
